import Mathlib

/-!
# Verification of the SecuriTutor study agent (`src/agent.py`)

Shallow embedding of the pure logic of `SecurityStudyAgent`:

* Python strings are modelled as `List Char` (`Str`); `str.strip` / `str.lower`
  / `str.upper` are modelled on the ASCII range that the program's command
  keywords and error-message probes live in.
* The progress file is modelled as holding a JSON document (`FileState`):
  the serialization of a JSON value to text and back is the standard-library
  `json` module, outside this repository; `missing` and `malformed` stand for
  the file states whose reads raise (`FileNotFoundError`, `JSONDecodeError`),
  which `load_progress` catches with a bare `except`.
* `json.loads` inside `generate_quiz` is likewise external and is a parameter
  (`parse`) of the extraction step; a successful parse of a text that starts
  with `[` yields an array, hence its result type `List Json`.
* Python `int` is unbounded and becomes `Int`; the single floating-point
  computation (`accuracy`) is modelled in exact rational arithmetic `ℚ`.
* `datetime.now().isoformat()` is an opaque input string threaded through the
  operations.
-/

abbrev Str := List Char

def chars (s : String) : Str := s.toList

/-- ASCII whitespace as stripped by Python's `str.strip()` (Python also strips
further Unicode space characters, which none of the program's inputs of
interest contain). -/
def isPySpace (c : Char) : Bool :=
  c = ' ' || c = '\t' || c = '\n' || c = '\r' || c = '\x0b' || c = '\x0c'

/-- Python `s.strip()`. -/
def pyStrip (s : Str) : Str :=
  ((s.dropWhile isPySpace).reverse.dropWhile isPySpace).reverse

/-- Python `s.lower()` on the ASCII range. -/
def pyLower (s : Str) : Str := s.map Char.toLower

/-- Python `s.upper()` on the ASCII range. -/
def pyUpper (s : Str) : Str := s.map Char.toUpper

/-- Python `s.find(c)`: index of the first occurrence, `None` for `-1`. -/
def pyFind (s : Str) (c : Char) : Option Nat := s.findIdx? (· == c)

/-- Python `s.rfind(c)`: index of the last occurrence, `None` for `-1`. -/
def pyRfind (s : Str) (c : Char) : Option Nat :=
  match s.reverse.findIdx? (· == c) with
  | some i => some (s.length - 1 - i)
  | none => none

/-- Python `s[a:b]` for `0 ≤ a, b` (empty when `b ≤ a`, clipped at the end). -/
def pySlice (s : Str) (a b : Nat) : Str := (s.take b).drop a

/-- Left-to-right scan of `removeAll`, structurally recursive on a fuel that
each step decrements while consuming at least one character, so fuel
`s.length` always reaches the end of the scan. -/
def removeAllFuel (pat : Str) : Nat → Str → Str
  | _, [] => []
  | 0, s => s
  | n + 1, c :: rest =>
    if pat.isPrefixOf (c :: rest) && !pat.isEmpty then
      removeAllFuel pat n (rest.drop (pat.length - 1))
    else
      c :: removeAllFuel pat n rest

/-- Python `s.replace(pat, '')` for a non-empty `pat`: remove every
left-to-right, non-overlapping occurrence of `pat`.  (`replace` with an empty
pattern never arises: the program only removes `'explain '` and `'quiz '`.) -/
def removeAll (pat s : Str) : Str := removeAllFuel pat s.length s

/-- Python `pat in s`: substring test. -/
def pyContains : Str → Str → Bool
  | [], pat => pat.isEmpty
  | s@(_ :: rest), pat => pat.isPrefixOf s || pyContains rest pat

/-! ## The JSON data model

`json.load` produces a tree of dicts/lists/strings/numbers/booleans/`None`;
Python preserves dict insertion order, so an object is an ordered association
list.  Integer and float values are both JSON numbers, modelled in `ℚ`. -/

inductive Json where
  | null
  | bool (b : Bool)
  | num (q : ℚ)
  | str (s : Str)
  | arr (elems : List Json)
  | obj (fields : List (Str × Json))

/-- Dict lookup `j[k]` (first binding; the program only builds objects with
distinct keys). -/
def Json.getField : Json → Str → Option Json
  | .obj fields, k => List.lookup k fields
  | _, _ => none

/-! ## The progress record (§3 of the spec, built at `agent.py:37-42`) -/

structure TopicEntry where
  topic : Str
  date : Str
deriving DecidableEq

structure QuizScore where
  date : Str
  score : Int
  total : Int
  accuracy : ℚ
deriving DecidableEq

structure ProgressRecord where
  topics_studied : List TopicEntry
  quiz_scores : List QuizScore
  total_questions : Int
  correct_answers : Int
deriving DecidableEq

/-- The fresh empty record built by the `except` branch of `load_progress`. -/
def defaultRecord : ProgressRecord :=
  { topics_studied := [], quiz_scores := [], total_questions := 0,
    correct_answers := 0 }

def encodeTopic (t : TopicEntry) : Json :=
  .obj [(chars "topic", .str t.topic), (chars "date", .str t.date)]

def encodeScore (s : QuizScore) : Json :=
  .obj [(chars "date", .str s.date), (chars "score", .num s.score),
        (chars "total", .num s.total), (chars "accuracy", .num s.accuracy)]

/-- The JSON document `save_progress` hands to `json.dump` for an in-memory
record of the schema of §3 (dict insertion order as in the source). -/
def ProgressRecord.toJson (r : ProgressRecord) : Json :=
  .obj [(chars "topics_studied", .arr (r.topics_studied.map encodeTopic)),
        (chars "quiz_scores", .arr (r.quiz_scores.map encodeScore)),
        (chars "total_questions", .num r.total_questions),
        (chars "correct_answers", .num r.correct_answers)]

/-- The JSON document of the fresh empty record, as the dict literal at
`agent.py:37-42`. -/
def defaultProgressJson : Json :=
  .obj [(chars "topics_studied", .arr []),
        (chars "quiz_scores", .arr []),
        (chars "total_questions", .num 0),
        (chars "correct_answers", .num 0)]

def decodeStr : Json → Option Str
  | .str s => some s
  | _ => none

/-- A JSON number read back as a Python `int`. -/
def decodeInt : Json → Option Int
  | .num q => if q.den = 1 then some q.num else none
  | _ => none

def decodeRat : Json → Option ℚ
  | .num q => some q
  | _ => none

def decodeTopic (j : Json) : Option TopicEntry := do
  let t ← decodeStr (← j.getField (chars "topic"))
  let d ← decodeStr (← j.getField (chars "date"))
  pure { topic := t, date := d }

def decodeScore (j : Json) : Option QuizScore := do
  let d ← decodeStr (← j.getField (chars "date"))
  let s ← decodeInt (← j.getField (chars "score"))
  let t ← decodeInt (← j.getField (chars "total"))
  let a ← decodeRat (← j.getField (chars "accuracy"))
  pure { date := d, score := s, total := t, accuracy := a }

def decodeList (f : Json → Option α) : List Json → Option (List α)
  | [] => some []
  | x :: xs => do pure ((← f x) :: (← decodeList f xs))

def decodeArr (f : Json → Option α) : Json → Option (List α)
  | .arr xs => decodeList f xs
  | _ => none

/-- Reading a JSON document back as a record of the schema of §3: the sense in
which a loaded document "is" a `ProgressRecord`. -/
def ProgressRecord.fromJson (j : Json) : Option ProgressRecord := do
  let ts ← decodeArr decodeTopic (← j.getField (chars "topics_studied"))
  let qs ← decodeArr decodeScore (← j.getField (chars "quiz_scores"))
  let tq ← decodeInt (← j.getField (chars "total_questions"))
  let ca ← decodeInt (← j.getField (chars "correct_answers"))
  pure { topics_studied := ts, quiz_scores := qs, total_questions := tq,
         correct_answers := ca }

/-! ## The progress file (`load_progress` / `save_progress`) -/

/-- The states the progress file can be in when read: absent, unparseable
text, or a parseable JSON document. -/
inductive FileState where
  | missing
  | malformed
  | content (j : Json)

/-- `load_progress` (`agent.py:31-42`): `json.load` succeeds and its value is
adopted verbatim, or the bare `except` substitutes the fresh empty record. -/
def loadProgress : FileState → Json
  | .content j => j
  | .missing => defaultProgressJson
  | .malformed => defaultProgressJson

/-- `save_progress` (`agent.py:44-47`): overwrite the file with the record's
document, whatever the file held before. -/
def saveProgress (j : Json) (_fs : FileState) : FileState := .content j

/-! ## Quiz generation: the extraction step (`generate_quiz`, `agent.py:126-137`)

`json.loads` is the standard library's parser, outside this repository, so the
extraction step is parametric in it: `parse txt = some elems` models a
successful `json.loads(txt)` (a JSON text starting with `[` parses to an
array, whose element list is `elems`), `none` models `json.JSONDecodeError`. -/

/-- `start = text.find('['); end = text.rfind(']') + 1;` then slice, parse,
and fall back to `[]` on absent brackets or a `JSONDecodeError`. -/
def extractQuiz (parse : Str → Option (List Json)) (text : Str) : List Json :=
  match pyFind text '[', pyRfind text ']' with
  | some s, some e =>
    match parse (pySlice text s (e + 1)) with
    | some elems => elems
    | none => []
  | some _, none => []
  | none, _ => []

/-! ## The quiz runner (`take_quiz`, `agent.py:139-177`) -/

/-- One parsed quiz question (§3 of the spec): the shape `take_quiz` reads
back out of the parsed array. -/
structure QuizQuestion where
  question : Str
  options : List Str
  correct : Str
  explanation : Str
deriving DecidableEq

/-- `answer = input(...).strip().upper()` compared with `q['correct']`. -/
def answeredCorrect (q : QuizQuestion) (rawAnswer : Str) : Bool :=
  pyUpper (pyStrip rawAnswer) == q.correct

/-- The score accumulated over the question loop: one point per question whose
(stripped, uppercased) answer equals `correct`.  `answers` is the stream of
`input()` lines, one per question. -/
def quizScore (quiz : List QuizQuestion) (answers : List Str) : Nat :=
  (quiz.zip answers).countP fun p => answeredCorrect p.1 p.2

/-- The record mutation at the end of `take_quiz` (`agent.py:165-175`):
append a `QuizScore` with `accuracy = (score / len(quiz_data)) * 100`, then
add the counters. -/
def takeQuiz (r : ProgressRecord) (quiz : List QuizQuestion)
    (answers : List Str) (date : Str) : ProgressRecord :=
  let score : Nat := quizScore quiz answers
  { r with
    quiz_scores := r.quiz_scores ++
      [{ date := date, score := (score : Int), total := (quiz.length : Int),
         accuracy := ((score : ℚ) / (quiz.length : ℚ)) * 100 }],
    total_questions := r.total_questions + (quiz.length : Int),
    correct_answers := r.correct_answers + (score : Int) }

/-- `take_quiz` ends with `self.save_progress()`: the new record is written to
the file before returning. -/
def takeQuizOp (r : ProgressRecord) (fs : FileState) (quiz : List QuizQuestion)
    (answers : List Str) (date : Str) : ProgressRecord × FileState :=
  let r' := takeQuiz r quiz answers date
  (r', saveProgress r'.toJson fs)

/-! ## Explaining a concept (`explain_concept`, `agent.py:78-86`)

Only the progress mutation after a successful model call: the model text
itself is returned unchanged and tracked nowhere. -/

/-- `if topic not in [t['topic'] for t in ...]: append and save.` -/
def explainConcept (r : ProgressRecord) (topic date : Str) : ProgressRecord :=
  if topic ∈ r.topics_studied.map (·.topic) then r
  else { r with topics_studied := r.topics_studied ++ [{ topic := topic, date := date }] }

/-- `explain_concept`'s mutation together with its save (`agent.py:84`): the
file is rewritten exactly when the topic is new. -/
def explainConceptOp (r : ProgressRecord) (fs : FileState) (topic date : Str) :
    ProgressRecord × FileState :=
  let r' := explainConcept r topic date
  if topic ∈ r.topics_studied.map (·.topic) then (r', fs)
  else (r', saveProgress r'.toJson fs)

/-! ## Error classification (`agent.py:66-76` and `agent.py:111-124`) -/

/-- `"429" in msg or "quota" in msg.lower() or "rate" in msg.lower()`. -/
def isRateLimitError (msg : Str) : Bool :=
  pyContains msg (chars "429") || pyContains (pyLower msg) (chars "quota") ||
    pyContains (pyLower msg) (chars "rate")

/-- `"403" in msg or "permission" in msg.lower()`. -/
def isPermissionError (msg : Str) : Bool :=
  pyContains msg (chars "403") || pyContains (pyLower msg) (chars "permission")

/-- The string `explain_concept` returns when `generate_content` raised with
message `msg` (`agent.py:69-76`). -/
def explainErrorMessage (msg : Str) : Str :=
  if isRateLimitError msg then
    chars "⚠️ API rate limit reached. Please wait a minute and try again, or check your API quota at https://ai.dev/usage"
  else if isPermissionError msg then
    chars "⚠️ API access denied. Please check your API key is valid and has proper permissions."
  else
    chars "⚠️ Error generating explanation: " ++ msg.take 100

/-- What `generate_quiz` prints and returns when `generate_content` raised
with message `msg` (`agent.py:114-124`): a diagnostic line and the empty
quiz. -/
def quizErrorResult (msg : Str) : Str × List Json :=
  if isRateLimitError msg then
    (chars "⚠️ API rate limit reached. Please wait a minute and try again.", [])
  else if isPermissionError msg then
    (chars "⚠️ API access denied. Please check your API key.", [])
  else
    (chars "⚠️ Error generating quiz: " ++ msg.take 100, [])

/-! ## The command router (`chat`, `agent.py:254-301`) -/

inductive Command where
  | quit
  | help
  | explainCmd (topic : Str)
  | quizCmd (topic : Str)
  | progress
  | unknown
deriving DecidableEq

/-- `user_input = input(...).strip().lower()` followed by the `if`/`elif`
chain: `startswith` guards, and `topic = user_input.replace(cmd, '').strip()`
inside the `explain`/`quiz` branches. -/
def route (raw : Str) : Command :=
  let s := pyLower (pyStrip raw)
  if s = chars "quit" then .quit
  else if s = chars "help" then .help
  else if (chars "explain ").isPrefixOf s then
    .explainCmd (pyStrip (removeAll (chars "explain ") s))
  else if (chars "quiz ").isPrefixOf s then
    .quizCmd (pyStrip (removeAll (chars "quiz ") s))
  else if s = chars "progress" then .progress
  else .unknown

/-- The `quiz` branch of `chat` after `generate_quiz` returned `quiz`
(`agent.py:278-294`): `if quiz_data:` guards `take_quiz`, so an empty quiz
reaches neither the runner nor its division; `some` carries the new record and
the `(score, total)` pair `take_quiz` returns. -/
def chatQuizStep (r : ProgressRecord) (quiz : List QuizQuestion)
    (answers : List Str) (date : Str) : Option (ProgressRecord × Nat × Nat) :=
  if quiz.isEmpty then none
  else some (takeQuiz r quiz answers date, quizScore quiz answers, quiz.length)

/-! ## Helper lemmas: decoding inverts encoding -/

theorem decodeTopic_encodeTopic (t : TopicEntry) :
    decodeTopic (encodeTopic t) = some t := rfl

theorem decodeInt_intCast (n : Int) : decodeInt (.num (n : ℚ)) = some n := rfl

theorem decodeScore_encodeScore (s : QuizScore) :
    decodeScore (encodeScore s) = some s := rfl

theorem decodeList_map (f : Json → Option α) (g : α → Json)
    (h : ∀ a, f (g a) = some a) : ∀ l : List α, decodeList f (l.map g) = some l
  | [] => rfl
  | a :: l => by
    simp only [List.map_cons, decodeList, h a, Option.bind_some,
      decodeList_map f g h l, Option.pure_def, Option.bind_eq_bind,
      Option.some_bind]

theorem fromJson_toJson (r : ProgressRecord) :
    ProgressRecord.fromJson r.toJson = some r := by
  show Option.bind (decodeList decodeTopic (r.topics_studied.map encodeTopic)) _ = _
  rw [decodeList_map decodeTopic encodeTopic decodeTopic_encodeTopic]
  show Option.bind (decodeList decodeScore (r.quiz_scores.map encodeScore)) _ = _
  rw [decodeList_map decodeScore encodeScore decodeScore_encodeScore]
  rfl

/-! ## Concrete material used by the closed witness statements -/

/-- The invariant of §3: correct answers never exceed questions attempted. -/
def ProgressInv (r : ProgressRecord) : Prop :=
  r.correct_answers ≤ r.total_questions

/-- A syntactically valid JSON document of the record schema whose counters
violate `correct_answers ≤ total_questions`. -/
def invalidShapeJson : Json :=
  .obj [(chars "topics_studied", .arr []),
        (chars "quiz_scores", .arr []),
        (chars "total_questions", .num 2),
        (chars "correct_answers", .num 5)]

/-- A concrete stand-in for `json.loads`, defined on the one text the witness
feeds it. -/
def parseDemo (s : Str) : Option (List Json) :=
  if s = chars "[1]" then some [Json.num 1] else none

def demoQuestion (idx correct : String) : QuizQuestion :=
  { question := chars idx,
    options := [chars "A) w", chars "B) x", chars "C) y", chars "D) z"],
    correct := chars correct, explanation := chars "because" }

/-- Five questions whose correct answers are A, B, C, D, A. -/
def demoQuiz : List QuizQuestion :=
  [demoQuestion "q1" "A", demoQuestion "q2" "B", demoQuestion "q3" "C",
   demoQuestion "q4" "D", demoQuestion "q5" "A"]

/-- Five `input()` lines: `"a"` and `" b"` and `"D"` are right once stripped
and uppercased, `"x"` and `"B"` are wrong, so the score is 3 of 5. -/
def demoAnswers : List Str :=
  [chars "a", chars " b", chars "x", chars "D", chars "B"]

/-! ## Claim theorems -/

/-- C3: for every valid `ProgressRecord`, `save_progress` followed by
`load_progress` yields the very document that was saved, and reading that
document back as a record of the §3 schema recovers the record exactly
(serialization round-trip). -/
theorem save_then_load_roundtrip (r : ProgressRecord) (fs : FileState) :
    loadProgress (saveProgress r.toJson fs) = r.toJson ∧
    ProgressRecord.fromJson (loadProgress (saveProgress r.toJson fs)) = some r :=
  ⟨rfl, fromJson_toJson r⟩

/-- C4: whenever the progress file is missing or malformed, `load_progress`
yields the empty default record — empty `topics_studied`, empty `quiz_scores`,
`total_questions = 0`, `correct_answers = 0` — and, being a total function,
never raises. -/
theorem load_missing_or_malformed_default (fs : FileState)
    (h : fs = .missing ∨ fs = .malformed) :
    loadProgress fs = defaultProgressJson ∧
    ProgressRecord.fromJson (loadProgress fs) = some defaultRecord := by
  rcases h with h | h <;> subst h <;> exact ⟨rfl, rfl⟩

/-- Witness for C4 at the concrete missing-file state. -/
theorem load_missing_or_malformed_default_witness :
    loadProgress .missing = defaultProgressJson ∧
    ProgressRecord.fromJson (loadProgress .missing) = some defaultRecord :=
  load_missing_or_malformed_default .missing (Or.inl rfl)

/-- C9: `load_progress` adopts any syntactically valid JSON document verbatim
with no schema validation; in particular the well-formed document with
`correct_answers = 5 > 2 = total_questions` is adopted as is, not replaced by
the empty default record. -/
theorem load_adopts_valid_json_verbatim :
    (∀ j, loadProgress (.content j) = j) ∧
    loadProgress (.content invalidShapeJson) ≠ defaultProgressJson ∧
    ProgressRecord.fromJson (loadProgress (.content invalidShapeJson)) =
      some { topics_studied := [], quiz_scores := [], total_questions := 2,
             correct_answers := 5 } := by
  refine ⟨fun _ => rfl, ?_, rfl⟩
  intro h
  have h5 : invalidShapeJson.getField (chars "correct_answers") =
      some (.num 5) := rfl
  rw [show loadProgress (.content invalidShapeJson) = invalidShapeJson from rfl]
    at h
  rw [h] at h5
  have h0 : defaultProgressJson.getField (chars "correct_answers") =
      some (.num 0) := rfl
  rw [h0] at h5
  injection h5 with h5
  injection h5 with h5
  norm_num at h5

theorem quizScore_le_length (quiz : List QuizQuestion) (answers : List Str) :
    quizScore quiz answers ≤ quiz.length :=
  le_trans (List.countP_le_length _)
    (by rw [List.length_zip]; exact Nat.min_le_left _ _)

/-- C5: `correct_answers ≤ total_questions` holds of the empty default record
and is preserved by the two record-mutating operations, `explain_concept` and
`take_quiz`, hence by every sequence of explanations, quizzes and answers. -/
theorem correct_le_total_invariant :
    ProgressInv defaultRecord ∧
    (∀ r topic date, ProgressInv r → ProgressInv (explainConcept r topic date)) ∧
    (∀ r quiz answers date, ProgressInv r →
      ProgressInv (takeQuiz r quiz answers date)) := by
  refine ⟨le_refl 0, ?_, ?_⟩
  · intro r topic date h
    unfold explainConcept
    split
    · exact h
    · exact h
  · intro r quiz answers date h
    have hs := quizScore_le_length quiz answers
    show r.correct_answers + (quizScore quiz answers : Int) ≤
      r.total_questions + (quiz.length : Int)
    have h' : ProgressInv r := h
    unfold ProgressInv at h'
    omega

/-- Witness for C5: the invariant after the concrete demo quiz on the empty
record. -/
theorem correct_le_total_invariant_witness :
    ProgressInv (takeQuiz defaultRecord demoQuiz demoAnswers (chars "d")) :=
  correct_le_total_invariant.2.2 defaultRecord demoQuiz demoAnswers (chars "d")
    (le_refl 0)

theorem explainConcept_mem {r : ProgressRecord} {topic date : Str}
    (h : topic ∈ r.topics_studied.map (·.topic)) :
    explainConcept r topic date = r := by
  simp [explainConcept, h]

theorem explainConcept_not_mem {r : ProgressRecord} {topic date : Str}
    (h : topic ∉ r.topics_studied.map (·.topic)) :
    explainConcept r topic date =
      { r with topics_studied :=
          r.topics_studied ++ [{ topic := topic, date := date }] } := by
  simp [explainConcept, h]

/-- C6: two successive `explain_concept` calls with the same topic (both model
calls succeeding) append exactly one `topics_studied` entry: the second call
leaves `topics_studied` unchanged. -/
theorem explain_twice_dedup (r : ProgressRecord) (topic d1 d2 : Str) :
    (explainConcept (explainConcept r topic d1) topic d2).topics_studied =
      (explainConcept r topic d1).topics_studied ∧
    (topic ∉ r.topics_studied.map (·.topic) →
      (explainConcept (explainConcept r topic d1) topic d2).topics_studied =
        r.topics_studied ++ [{ topic := topic, date := d1 }]) := by
  by_cases hmem : topic ∈ r.topics_studied.map (·.topic)
  · refine ⟨?_, fun h => absurd hmem h⟩
    simp only [explainConcept_mem hmem]
  · rw [@explainConcept_not_mem r topic d1 hmem]
    have hmem2 : topic ∈
        ({ r with topics_studied :=
            r.topics_studied ++ [{ topic := topic, date := d1 }] } :
          ProgressRecord).topics_studied.map (·.topic) := by simp
    rw [explainConcept_mem hmem2]
    exact ⟨rfl, fun _ => rfl⟩

/-- Witness for C6 on the empty record and a concrete topic. -/
theorem explain_twice_dedup_witness :
    (explainConcept (explainConcept defaultRecord (chars "phishing")
        (chars "d1")) (chars "phishing") (chars "d2")).topics_studied =
      [{ topic := chars "phishing", date := chars "d1" }] :=
  ((explain_twice_dedup defaultRecord (chars "phishing") (chars "d1")
      (chars "d2")).2 (by decide)).trans (by decide)

/-- C2: a quiz of `N = quiz.length` questions on which the user scores
`S = quizScore quiz answers` adds exactly `N` to `total_questions` and `S` to
`correct_answers`, appends one `quiz_scores` entry with score `S`, total `N`
and accuracy the exact rational `S / N * 100`, and the resulting record is
persisted to the file. -/
theorem take_quiz_updates (r : ProgressRecord) (quiz : List QuizQuestion)
    (answers : List Str) (date : Str) (fs : FileState)
    (_hne : quiz ≠ []) (_hlen : answers.length = quiz.length) :
    (takeQuiz r quiz answers date).total_questions =
      r.total_questions + quiz.length ∧
    (takeQuiz r quiz answers date).correct_answers =
      r.correct_answers + quizScore quiz answers ∧
    (takeQuiz r quiz answers date).quiz_scores = r.quiz_scores ++
      [{ date := date, score := quizScore quiz answers, total := quiz.length,
         accuracy := ((quizScore quiz answers : ℚ) / (quiz.length : ℚ)) * 100 }] ∧
    (takeQuizOp r fs quiz answers date).2 =
      .content (takeQuiz r quiz answers date).toJson :=
  ⟨rfl, rfl, rfl, rfl⟩

/-- Witness for C2: the demo quiz (5 questions, 3 answered correctly) on the
empty record gives the exact accuracy 60. -/
theorem take_quiz_updates_witness :
    ((takeQuiz defaultRecord demoQuiz demoAnswers (chars "d")).total_questions =
        defaultRecord.total_questions + demoQuiz.length ∧
      (takeQuiz defaultRecord demoQuiz demoAnswers (chars "d")).correct_answers =
        defaultRecord.correct_answers + quizScore demoQuiz demoAnswers ∧
      (takeQuiz defaultRecord demoQuiz demoAnswers (chars "d")).quiz_scores =
        defaultRecord.quiz_scores ++
          [{ date := chars "d", score := quizScore demoQuiz demoAnswers,
             total := demoQuiz.length,
             accuracy := ((quizScore demoQuiz demoAnswers : ℚ) /
               (demoQuiz.length : ℚ)) * 100 }] ∧
      (takeQuizOp defaultRecord FileState.missing demoQuiz demoAnswers
          (chars "d")).2 =
        .content (takeQuiz defaultRecord demoQuiz demoAnswers
          (chars "d")).toJson) ∧
    quizScore demoQuiz demoAnswers = 3 ∧ demoQuiz.length = 5 ∧
    ((quizScore demoQuiz demoAnswers : ℚ) / (demoQuiz.length : ℚ)) * 100 = 60 :=
  ⟨take_quiz_updates defaultRecord demoQuiz demoAnswers (chars "d")
      FileState.missing (by decide) (by decide),
    by decide, by decide, by
      have h1 : quizScore demoQuiz demoAnswers = 3 := by decide
      have h2 : demoQuiz.length = 5 := by decide
      rw [h1, h2]
      norm_num⟩

/-- C10: `take_quiz` computes `accuracy` by dividing by the length of its quiz
list, so it needs a non-empty quiz; the `chat` loop's quiz branch invokes it
only behind the `if quiz_data:` guard, i.e. only when `generate_quiz` returned
a non-empty list, so that divisor is never zero there. -/
theorem chat_quiz_guard (r : ProgressRecord) (quiz : List QuizQuestion)
    (answers : List Str) (date : Str) :
    (∀ res, chatQuizStep r quiz answers date = some res →
      quiz.length ≠ 0 ∧
      res = (takeQuiz r quiz answers date, quizScore quiz answers,
        quiz.length)) ∧
    (quiz = [] → chatQuizStep r quiz answers date = none) ∧
    (quiz ≠ [] →
      (takeQuiz r quiz answers date).quiz_scores.getLast? = some
        { date := date, score := quizScore quiz answers, total := quiz.length,
          accuracy := ((quizScore quiz answers : ℚ) / (quiz.length : ℚ)) * 100 } ∧
      (quiz.length : ℚ) ≠ 0) := by
  refine ⟨?_, ?_, ?_⟩
  · intro res h
    unfold chatQuizStep at h
    by_cases he : quiz.isEmpty
    · rw [if_pos he] at h
      exact absurd h (Option.some_ne_none res).symm
    · rw [if_neg he] at h
      refine ⟨?_, (Option.some_inj.mp h).symm⟩
      intro hlen
      exact he (List.isEmpty_iff.mpr (List.eq_nil_of_length_eq_zero hlen))
  · intro h
    subst h
    rfl
  · intro h
    constructor
    · show (r.quiz_scores ++ [_]).getLast? = _
      rw [List.getLast?_concat]
    · exact_mod_cast fun hlen =>
        h (List.eq_nil_of_length_eq_zero (by exact_mod_cast hlen))

/-- Witness for C10: the guard passes the demo quiz through and blocks the
empty quiz. -/
theorem chat_quiz_guard_witness :
    chatQuizStep defaultRecord [] [] (chars "d") = none ∧
    (takeQuiz defaultRecord demoQuiz demoAnswers (chars "d")).quiz_scores.getLast? =
      some { date := chars "d", score := quizScore demoQuiz demoAnswers,
             total := demoQuiz.length,
             accuracy := ((quizScore demoQuiz demoAnswers : ℚ) /
               (demoQuiz.length : ℚ)) * 100 } :=
  ⟨(chat_quiz_guard defaultRecord [] [] (chars "d")).2.1 rfl,
    ((chat_quiz_guard defaultRecord demoQuiz demoAnswers (chars "d")).2.2
      (by decide)).1⟩

/-- C1: the extraction step of `generate_quiz`, for any behaviour `parse` of
the external `json.loads`: when the text has a first `[` at `s` and a last `]`
at `e` and the enclosed substring parses as a JSON array, exactly that parsed
array is returned; when either bracket is absent, or the enclosed substring
fails to parse, the empty list is returned; and, being a total function, the
step never raises. -/
theorem generate_quiz_extraction (parse : Str → Option (List Json))
    (text : Str) :
    (∀ s e elems, pyFind text '[' = some s → pyRfind text ']' = some e →
      parse (pySlice text s (e + 1)) = some elems →
      extractQuiz parse text = elems) ∧
    (pyFind text '[' = none ∨ pyRfind text ']' = none →
      extractQuiz parse text = []) ∧
    (∀ s e, pyFind text '[' = some s → pyRfind text ']' = some e →
      parse (pySlice text s (e + 1)) = none →
      extractQuiz parse text = []) := by
  refine ⟨?_, ?_, ?_⟩
  · intro s e elems hs he hp
    simp only [extractQuiz, hs, he, hp]
  · intro h
    rcases h with h | h
    · simp only [extractQuiz, h]
    · cases hf : pyFind text '[' <;> simp only [extractQuiz, hf, h]
  · intro s e hs he hp
    simp only [extractQuiz, hs, he, hp]

/-- Witness for C1 on the concrete text `"ab[1]c"` and the concrete parse
function `parseDemo`. -/
theorem generate_quiz_extraction_witness :
    extractQuiz parseDemo (chars "ab[1]c") = [Json.num 1] :=
  (generate_quiz_extraction parseDemo (chars "ab[1]c")).1 2 4 [Json.num 1]
    (by decide) (by decide) rfl

/-- C7: a model-call failure is classified solely from its message text: a
`"429"` / case-insensitive `"quota"` / `"rate"` hit yields the rate-limit
message, otherwise a `"403"` / case-insensitive `"permission"` hit yields the
permission-denied message, and otherwise both handlers report a generic
message carrying at most the first 100 characters of the error text (and
`generate_quiz` additionally returns the empty quiz). -/
theorem model_error_classification (msg : Str) :
    (isRateLimitError msg =
      (pyContains msg (chars "429") || pyContains (pyLower msg) (chars "quota")
        || pyContains (pyLower msg) (chars "rate")) ∧
     isPermissionError msg =
      (pyContains msg (chars "403") ||
        pyContains (pyLower msg) (chars "permission"))) ∧
    (isRateLimitError msg = true →
      explainErrorMessage msg = chars "⚠️ API rate limit reached. Please wait a minute and try again, or check your API quota at https://ai.dev/usage" ∧
      quizErrorResult msg =
        (chars "⚠️ API rate limit reached. Please wait a minute and try again.",
          [])) ∧
    (isRateLimitError msg = false → isPermissionError msg = true →
      explainErrorMessage msg = chars "⚠️ API access denied. Please check your API key is valid and has proper permissions." ∧
      quizErrorResult msg =
        (chars "⚠️ API access denied. Please check your API key.", [])) ∧
    (isRateLimitError msg = false → isPermissionError msg = false →
      explainErrorMessage msg =
        chars "⚠️ Error generating explanation: " ++ msg.take 100 ∧
      quizErrorResult msg =
        (chars "⚠️ Error generating quiz: " ++ msg.take 100, []) ∧
      (msg.take 100).length ≤ 100 ∧ List.IsPrefix (msg.take 100) msg) := by
  refine ⟨⟨rfl, rfl⟩, ?_, ?_, ?_⟩
  · intro h
    constructor
    · simp only [explainErrorMessage, h, if_true]
    · simp only [quizErrorResult, h, if_true]
  · intro h1 h2
    constructor
    · simp only [explainErrorMessage, h1, h2, Bool.false_eq_true, if_false,
        if_true]
    · simp only [quizErrorResult, h1, h2, Bool.false_eq_true, if_false,
        if_true]
  · intro h1 h2
    refine ⟨?_, ?_, ?_, List.take_prefix 100 msg⟩
    · simp only [explainErrorMessage, h1, h2, Bool.false_eq_true, if_false]
    · simp only [quizErrorResult, h1, h2, Bool.false_eq_true, if_false]
    · calc (msg.take 100).length ≤ 100 := by
            rw [List.length_take]; exact Nat.min_le_left _ _

/-- Witness for C7 at three concrete error messages, one per class. -/
theorem model_error_classification_witness :
    explainErrorMessage (chars "429 Too Many Requests") =
      chars "⚠️ API rate limit reached. Please wait a minute and try again, or check your API quota at https://ai.dev/usage" ∧
    explainErrorMessage (chars "403 Forbidden") =
      chars "⚠️ API access denied. Please check your API key is valid and has proper permissions." ∧
    quizErrorResult (chars "boom") =
      (chars "⚠️ Error generating quiz: " ++ (chars "boom").take 100, []) :=
  ⟨((model_error_classification (chars "429 Too Many Requests")).2.1
      (by decide)).1,
    ((model_error_classification (chars "403 Forbidden")).2.2.1 (by decide)
      (by decide)).1,
    ((model_error_classification (chars "boom")).2.2.2 (by decide)
      (by decide)).2.1⟩

/-- Counterexample to C8 as stated: on the input line `"explain SQL"` the
`chat` router hands the handler the topic `"sql"`, not the `"SQL"` the user
typed — the whole line was lowercased before dispatch. -/
theorem route_not_verbatim :
    route (chars "explain SQL") = Command.explainCmd (chars "sql") ∧
    chars "sql" ≠ chars "SQL" := by decide

/-- C8 (amended): the topic a `chat` command line passes to its handler is the
lowercased, stripped input line with every occurrence of the command prefix
(`"explain "` / `"quiz "`) removed and surrounding whitespace stripped; that
derived topic then reaches the progress record exactly as derived, with no
further validation. -/
theorem route_topic_derivation (raw : Str) :
    (∀ t, route raw = Command.explainCmd t →
      t = pyStrip (removeAll (chars "explain ") (pyLower (pyStrip raw)))) ∧
    (∀ t, route raw = Command.quizCmd t →
      t = pyStrip (removeAll (chars "quiz ") (pyLower (pyStrip raw)))) ∧
    (∀ t r date, t ∉ r.topics_studied.map (·.topic) →
      (explainConcept r t date).topics_studied =
        r.topics_studied ++ [{ topic := t, date := date }]) := by
  refine ⟨?_, ?_, fun t r date h => by rw [explainConcept_not_mem h]⟩
  · intro t h
    simp only [route] at h
    split_ifs at h
    all_goals cases h <;> rfl
  · intro t h
    simp only [route] at h
    split_ifs at h
    all_goals cases h <;> rfl

/-- Witness for C8's amended claim: `"explain SQL Injection"` derives the
topic `"sql injection"`. -/
theorem route_topic_derivation_witness :
    chars "sql injection" = pyStrip (removeAll (chars "explain ")
      (pyLower (pyStrip (chars "explain SQL Injection")))) :=
  (route_topic_derivation (chars "explain SQL Injection")).1
    (chars "sql injection") (by decide)
